import Mathlib

/-!
Verification of the compile-job orchestration pipeline of `src/server.js`
(an HTTP service that compiles Arduino sketches with an external
`arduino-cli` binary).

JavaScript strings are modelled as `List Char`; JS `undefined`/absent
values as `Option`.  All definitions are transcribed from the source
file; the system-level effects (filesystem existence checks, the
`execFile` subprocess call, directory creation/removal) are modelled by
an explicit environment record `Env` whose fields say what each of those
external operations would do during the request.
-/

namespace ArduinoCompiler

/-- Characters of a string literal, used to write JS string constants. -/
def str (s : String) : List Char := s.data

/-- JS falsiness of a possibly-absent string: `undefined`/`null` and the
empty string are falsy (`!x` is true). -/
def jsFalsy : Option (List Char) → Bool
  | none => true
  | some [] => true
  | some (_ :: _) => false

/-- JS `a || b` for a possibly-absent string `a`: returns `a` unless it
is falsy (absent or empty), otherwise `b`. -/
def jsOr : Option (List Char) → List Char → List Char
  | some (c :: cs), _ => c :: cs
  | _, b => b

/-- `needle` occurs as a contiguous substring of `haystack`
(JS `haystack.includes(needle)`). -/
def containsSub (needle : List Char) : List Char → Bool
  | [] => needle.isEmpty
  | c :: t => needle.isPrefixOf (c :: t) || containsSub needle t

/-- The four case-sensitive error markers of `extractErrorMessage`
(src/server.js lines 178-182). -/
def errorMarkers : List (List Char) :=
  [str "error:", str "Error:", str "undefined reference", str "fatal error"]

/-- The line filter of `extractErrorMessage`: the line contains one of
the four markers (src/server.js lines 177-183). -/
def isErrorLine (line : List Char) : Bool :=
  containsSub (str "error:") line || containsSub (str "Error:") line ||
  containsSub (str "undefined reference") line || containsSub (str "fatal error") line

/-- `extractErrorMessage` (src/server.js lines 173-187): for a falsy
input return a fixed message; otherwise split on `'\n'`, keep the lines
containing an error marker, and return the first 8 of them joined by
`'\n'`, or the first 800 characters of the input when no line matches. -/
def extractErrorMessage (output : Option (List Char)) : List Char :=
  if jsFalsy output then str "Unknown compilation error"
  else
    let t := output.getD []
    let lines := t.splitOn '\n'
    let errorLines := lines.filter isErrorLine
    if errorLines.length > 0 then List.intercalate ['\n'] (errorLines.take 8)
    else t.take 800

/-- Numeric value of a run of decimal digits (JS `parseInt(ds, 10)`). -/
def natOfDigits (ds : List Char) : Nat :=
  ds.foldl (fun n c => 10 * n + (c.toNat - '0'.toNat)) 0

/-- Match the regex `pre(\d+)post` anchored at the head of `t`: `t` must
start with the literal `pre`, followed by a nonempty maximal digit run
(greedy `\d+`; since `post` starts with a non-digit, backtracking never
succeeds with a shorter run), followed by the literal `post`.  Returns
the numeric value of the digit run. -/
def matchNumAfter (pre post t : List Char) : Option Nat :=
  if pre.isPrefixOf t then
    let rest := t.drop pre.length
    let ds := rest.takeWhile Char.isDigit
    if ds.isEmpty then none
    else if post.isPrefixOf (rest.drop ds.length) then some (natOfDigits ds)
    else none
  else none

/-- Leftmost match of the single-match regex `pre(\d+)post` over `t`
(JS `t.match(/pre(\d+)post/)` followed by `parseInt` of group 1). -/
def findNumAfter (pre post : List Char) : List Char → Option Nat
  | [] => matchNumAfter pre post []
  | c :: t => (matchNumAfter pre post (c :: t)).orElse fun _ => findNumAfter pre post t

/-- Result of `parseSizeInfo`: the `{ flash, ram }` object. -/
structure SizeInfo where
  flash : Option Nat
  ram : Option Nat
deriving DecidableEq, Repr

/-- `parseSizeInfo` (src/server.js lines 190-198): two independent
single-match regexes `/Sketch uses (\d+) bytes/` and
`/Global variables use (\d+) bytes/`; each field is `null` when its
pattern does not match. -/
def parseSizeInfo (output : List Char) : SizeInfo :=
  { flash := findNumAfter (str "Sketch uses ") (str " bytes") output
    ram := findNumAfter (str "Global variables use ") (str " bytes") output }

/-- `SUPPORTED_BOARDS` (src/server.js lines 18-34) as an association
list in insertion order: fqbn key mapped to `(name, core)`. -/
def SUPPORTED_BOARDS : List (List Char × (List Char × List Char)) :=
  [(str "arduino:avr:uno", (str "Arduino Uno", str "arduino:avr")),
   (str "arduino:avr:nano", (str "Arduino Nano", str "arduino:avr")),
   (str "arduino:avr:nano:cpu=atmega328", (str "Arduino Nano", str "arduino:avr")),
   (str "arduino:avr:nano:cpu=atmega328old", (str "Arduino Nano (Old Bootloader)", str "arduino:avr")),
   (str "arduino:avr:mega:cpu=atmega2560", (str "Arduino Mega 2560", str "arduino:avr")),
   (str "arduino:avr:leonardo", (str "Arduino Leonardo", str "arduino:avr")),
   (str "arduino:avr:micro", (str "Arduino Micro", str "arduino:avr"))]

/-- `Object.keys(SUPPORTED_BOARDS)` — string keys in insertion order
(own keys only; inherited properties are not enumerated). -/
def supportedKeys : List (List Char) := SUPPORTED_BOARDS.map Prod.fst

/-- The property names of `Object.prototype`, which JS bracket access on
an object literal reaches through the prototype chain.  Every one of
them yields a truthy value on a plain object (eleven functions and the
`__proto__` accessor returning `Object.prototype` itself). -/
def protoProps : List (List Char) :=
  [str "constructor", str "hasOwnProperty", str "isPrototypeOf",
   str "propertyIsEnumerable", str "toLocaleString", str "toString",
   str "valueOf", str "__defineGetter__", str "__defineSetter__",
   str "__lookupGetter__", str "__lookupSetter__", str "__proto__"]

/-- Truthiness of `SUPPORTED_BOARDS[fqbn]` (src/server.js line 100): JS
bracket access finds the own key (whose values, object literals, are all
truthy) or falls back to the prototype chain, where every
`Object.prototype` member is truthy as well.  So `!SUPPORTED_BOARDS[fqbn]`
is false exactly for registry keys and `Object.prototype` property
names. -/
def boardAccessTruthy (f : List Char) : Bool :=
  (SUPPORTED_BOARDS.lookup f).isSome || protoProps.contains f

/-- The whitespace characters stripped by JS `String.prototype.trim`
(ASCII part; the Unicode space characters never appear in our inputs). -/
def jsWhite (c : Char) : Bool :=
  c == ' ' || c == '\t' || c == '\n' || c == '\r' || c == '\x0b' || c == '\x0c'

/-- JS `s.trim()`: strip whitespace from both ends. -/
def jsTrim (s : List Char) : List Char :=
  ((s.dropWhile jsWhite).reverse.dropWhile jsWhite).reverse

/-- `` `${stdout || ""}\n${stderr || ""}`.trim() `` (src/server.js line 81). -/
def combineOutput (stdout stderr : List Char) : List Char :=
  jsTrim (stdout ++ '\n' :: stderr)

/-- What the `execFile` subprocess call would do on this request: exit
with a code after printing the two streams, or be killed by the
wall-clock timeout (`timeout: timeoutMs`, src/server.js line 77).  On a
timeout Node kills the process and reports the error with
`killed = true` and a termination signal instead of an exit code. -/
inductive ExecOutcome where
  | exited (code : Nat) (stdout stderr : List Char)
  | timedOut (stdout stderr : List Char)
deriving DecidableEq, Repr

/-- The discriminating shape of the JS error `runArduinoCli` rejects
with: the hand-thrown `Error` for a missing binary (src/server.js line
63), or the `execFile` callback error, which carries `code = <exit
code>` for a non-zero exit and `killed = true` with a signal (and no
exit code) for a timeout kill. -/
inductive ErrKind where
  | binaryMissing
  | exitNonZero (code : Nat)
  | timeoutKilled
deriving DecidableEq, Repr

/-- The rejection value of `runArduinoCli`: the error's discriminating
fields, its `.message`, and the `.combined` output attached at
src/server.js line 84 (`none` when the binary was missing and no
subprocess ran). -/
structure JsError where
  kind : ErrKind
  message : List Char
  combined : Option (List Char)
deriving DecidableEq, Repr

/-- The default `timeoutMs` of `runArduinoCli` (src/server.js line 59). -/
def defaultTimeoutMs : Nat := 120000

/-- The `maxBuffer` option of the `execFile` call (src/server.js line 78). -/
def maxBufferBytes : Nat := 50 * 1024 * 1024

/-- Everything external the request handler consults, fixed for one
request: whether the two files at the fixed install paths exist, the
interpolated path strings, what the workspace setup and the subprocess
would do, and whether the HEX artifact appears. -/
structure Env where
  /-- `fs.existsSync(CLI)` — the toolchain binary is present. -/
  cliExists : Bool
  /-- `fs.existsSync(CFG)` — the configuration file is present. -/
  cfgExists : Bool
  /-- The interpolated `CLI` path string `path.join(__dirname, "bin", "arduino-cli")`. -/
  cliPath : List Char
  /-- The interpolated `CFG` path string `path.join(__dirname, ".arduino-cli.yaml")`. -/
  cfgPath : List Char
  /-- The `uuidv4()` build id of this request. -/
  buildId : List Char
  /-- The two `mkdirSync` calls and the `writeFileSync` call all succeed. -/
  setupOk : Bool
  /-- `.message` of the exception thrown when workspace setup fails. -/
  setupErrMsg : List Char
  /-- Behaviour of `execFile(CLI, finalArgs, ...)` as a function of the
  argument vector it is given. -/
  exec : List (List Char) → ExecOutcome
  /-- `.message` Node puts on the `execFile` callback error. -/
  nodeErrMsg : List Char
  /-- `fs.existsSync(hexFile)` — the artifact was produced. -/
  hexExists : Bool
  /-- `fs.readFileSync(hexFile)` succeeds. -/
  hexReadOk : Bool
  /-- `.message` of the exception thrown when reading the artifact fails. -/
  hexReadErrMsg : List Char
  /-- Content of the artifact when it exists and reading succeeds. -/
  hexContent : List Char
  /-- `fs.rmSync(buildDir, { recursive: true, force: true })` succeeds. -/
  rmOk : Bool

/-- Argument-vector construction of `runArduinoCli` (src/server.js lines
68-70): prepend `--config-file <CFG>` exactly when the configuration
file exists on disk. -/
def finalArgs (cfgExists : Bool) (cfgPath : List Char) (args : List (List Char)) :
    List (List Char) :=
  if cfgExists then str "--config-file" :: cfgPath :: args else args

/-- The message of the `Error` thrown at src/server.js line 64 when the
toolchain binary is absent at its fixed install path. -/
def missingCliMsg (env : Env) : List Char :=
  str "arduino-cli no existe en " ++ env.cliPath ++
    str ". Revisa tu Build Command en Render."

/-- `runArduinoCli` (src/server.js lines 59-91): reject when the binary
is absent; otherwise run `execFile` on the final argument vector and
resolve with the combined trimmed output on exit code 0, rejecting with
the callback error (combined output attached) otherwise. -/
def runArduinoCli (env : Env) (args : List (List Char)) : Except JsError (List Char) :=
  if env.cliExists = false then
    .error { kind := .binaryMissing
             message := missingCliMsg env
             combined := none }
  else
    match env.exec (finalArgs env.cfgExists env.cfgPath args) with
    | .exited 0 stdout stderr => .ok (combineOutput stdout stderr)
    | .exited (c + 1) stdout stderr =>
        .error { kind := .exitNonZero (c + 1), message := env.nodeErrMsg
                 combined := some (combineOutput stdout stderr) }
    | .timedOut stdout stderr =>
        .error { kind := .timeoutKilled, message := env.nodeErrMsg
                 combined := some (combineOutput stdout stderr) }

/-- `path.join("/tmp", "arduino-builds", buildId)` (src/server.js line 108). -/
def buildDir (env : Env) : List Char := str "/tmp/arduino-builds/" ++ env.buildId

/-- `path.join(buildDir, "sketch")` (src/server.js line 109). -/
def sketchDir (env : Env) : List Char := buildDir env ++ str "/sketch"

/-- `path.join(buildDir, "output")` (src/server.js line 111). -/
def outputDir (env : Env) : List Char := buildDir env ++ str "/output"

/-- The argument vector built at src/server.js lines 121-128. -/
def compileArgs (env : Env) (fqbn : List Char) : List (List Char) :=
  [str "compile", str "--fqbn", fqbn, str "--output-dir", outputDir env, sketchDir env]

/-- The JSON body and HTTP status the handler responds with; absent JSON
fields are `none`. -/
structure Response where
  status : Nat
  success : Bool
  error : Option (List Char)
  output : Option (List Char)
  hex : Option (List Char)
  size : Option SizeInfo
deriving DecidableEq, Repr

/-- A 400 validation response `{ success: false, error: msg }`. -/
def resp400 (msg : List Char) : Response :=
  { status := 400, success := false, error := some msg
    output := none, hex := none, size := none }

/-- A 500 response from the outer catch (src/server.js lines 156-161). -/
def resp500 (msg : List Char) : Response :=
  { status := 500, success := false, error := some msg
    output := none, hex := none, size := none }

/-- The fixed error message of the artifact-missing branch
(src/server.js line 142). -/
def hexNotFoundMsg : List Char := str "Compilation succeeded but HEX file not found"

/-- State of the job's workspace directory when the request completes:
whether the handler ever reached workspace creation, and whether the
directory tree still exists on disk afterwards. -/
structure FsState where
  created : Bool
  stillExists : Bool
deriving DecidableEq, Repr

/-- The body of the `try` block (src/server.js lines 113-155) together
with the outer `catch` (lines 156-161): workspace setup, the
toolchain call with its compile-error catch, artifact lookup, artifact
read, and the success response. -/
def tryBody (env : Env) (_code fqbn : List Char) : Response :=
  if env.setupOk = false then resp500 env.setupErrMsg
  else
    match runArduinoCli env (compileArgs env fqbn) with
    | .error e =>
        { status := 200, success := false
          error := some (extractErrorMessage (some (jsOr e.combined e.message)))
          output := some (jsOr e.combined e.message), hex := none, size := none }
    | .ok output =>
        if env.hexExists = false then
          { status := 200, success := false, error := some hexNotFoundMsg
            output := some output, hex := none, size := none }
        else if env.hexReadOk = false then resp500 env.hexReadErrMsg
        else
          { status := 200, success := true, error := none
            output := some output, hex := some env.hexContent
            size := some (parseSizeInfo output) }

/-- The `POST /compile` handler (src/server.js lines 94-170): the three
validation rejections happen before any filesystem effect; the board
check is the truthiness of JS bracket access (own keys and inherited
`Object.prototype` members both pass); every request that passes
validation enters the `try`/`finally`, and the `finally` block removes
the workspace tree (best-effort, failures swallowed) after the response
is determined. -/
def handleCompile (env : Env) (code fqbn : Option (List Char)) : Response × FsState :=
  if jsFalsy code then
    (resp400 (str "Missing code parameter"), { created := false, stillExists := false })
  else if jsFalsy fqbn then
    (resp400 (str "Missing fqbn parameter"), { created := false, stillExists := false })
  else
    let f := fqbn.getD []
    if boardAccessTruthy f = false then
      (resp400 (str "Unsupported board: " ++ f ++ str ". Supported: " ++
          List.intercalate (str ", ") supportedKeys),
       { created := false, stillExists := false })
    else
      (tryBody env (code.getD []) f,
       { created := true, stillExists := !env.rmOk })

/-- The lines of `t` that contain one of the four error markers as a
contiguous substring, stated with the claim's wording (`m <:+: l` is
list-infix, i.e. substring containment). -/
def specMatchingLines (t : List Char) : List (List Char) :=
  (t.splitOn '\n').filter fun l => decide (∃ m ∈ errorMarkers, m <:+: l)

/-- The error-summary function as the claim states it: exactly the lines
containing one of the markers, the first 8 of them joined by newline in
original order, and the first 800 characters of the raw text when no
line matches.  Used to compare `extractErrorMessage` against the claim's
wording. -/
def specErrorSummary (t : List Char) : List Char :=
  let matching := specMatchingLines t
  if matching = [] then t.take 800
  else List.intercalate ['\n'] (matching.take 8)

/-- A concrete environment for witnesses: both fixed-path files present,
workspace setup succeeds, the toolchain exits 0 printing a size line,
the artifact appears and reads back, cleanup succeeds. -/
def envBase : Env :=
  { cliExists := true
    cfgExists := true
    cliPath := str "/app/bin/arduino-cli"
    cfgPath := str "/app/.arduino-cli.yaml"
    buildId := str "123e4567-e89b-12d3-a456-426614174000"
    setupOk := true
    setupErrMsg := str "EACCES: permission denied"
    exec := fun _ => .exited 0
      (str "Sketch uses 1234 bytes (3%) of program storage space.") []
    nodeErrMsg := str "Command failed"
    hexExists := true
    hexReadOk := true
    hexReadErrMsg := str "ENOENT: no such file or directory"
    hexContent := str ":00000001FF"
    rmOk := true }

/-- Sample toolchain output with both size phrases. -/
def sizeSampleBoth : List Char :=
  str "Sketch uses 1234 bytes (3%) of program storage space. Maximum is 32256 bytes.\nGlobal variables use 56 bytes (2%) of dynamic memory."

/-- Sample toolchain output missing the RAM phrase. -/
def sizeSampleNoRam : List Char :=
  str "Sketch uses 1234 bytes (3%) of program storage space."

/-! ### Supporting lemmas about substring search and the extractor -/

theorem containsSub_nil (l : List Char) : containsSub [] l = true := by
  cases l <;> simp [containsSub, List.isPrefixOf]

theorem isPrefixOf_append {m l : List Char} (s : List Char)
    (h : m.isPrefixOf l = true) : m.isPrefixOf (l ++ s) = true := by
  simp only [ List.isPrefixOf_iff_prefix] at h ⊢
  exact h.trans (List.prefix_append l s)

theorem containsSub_append_right {m l : List Char} (s : List Char)
    (h : containsSub m l = true) : containsSub m (l ++ s) = true := by
  induction l with
  | nil =>
      have hm : m = [] := by simpa [containsSub] using h
      subst hm
      simpa using containsSub_nil s
  | cons c t ih =>
      simp only [containsSub, Bool.or_eq_true] at h
      rcases h with h | h
      · simp only [List.cons_append, containsSub, Bool.or_eq_true]
        exact Or.inl (isPrefixOf_append s h)
      · simp only [List.cons_append, containsSub, Bool.or_eq_true]
        exact Or.inr (ih h)

theorem containsSub_iff_substring {m l : List Char} :
    containsSub m l = true ↔ m <:+: l := by
  induction l with
  | nil => simp [containsSub]
  | cons c t ih => simp [containsSub, List.infix_cons_iff, ih]

theorem intercalate_cons_exists (sep h : List Char) (rest : List (List Char)) :
    ∃ s, List.intercalate sep (h :: rest) = h ++ s := by
  cases rest with
  | nil => exact ⟨[], by simp [List.intercalate]⟩
  | cons r rs =>
      exact ⟨sep ++ (List.intersperse sep (r :: rs)).flatten, by simp [List.intercalate]⟩

theorem isErrorLine_iff (l : List Char) :
    isErrorLine l = true ↔ ∃ m ∈ errorMarkers, m <:+: l := by
  simp [isErrorLine, errorMarkers, containsSub_iff_substring, or_assoc]

theorem isErrorLine_eq_spec (l : List Char) :
    isErrorLine l = decide (∃ m ∈ errorMarkers, m <:+: l) := by
  by_cases h : ∃ m ∈ errorMarkers, m <:+: l
  · rw [decide_eq_true h]
    exact (isErrorLine_iff l).mpr h
  · rw [decide_eq_false h]
    cases hb : isErrorLine l with
    | false => rfl
    | true => exact absurd ((isErrorLine_iff l).mp hb) h

theorem isErrorLine_ne_nil {l : List Char} (h : isErrorLine l = true) : l ≠ [] := by
  rintro rfl
  exact absurd h (by decide)

theorem filter_head_prop {α : Type} {p : α → Bool} {ls : List α} {h : α}
    {rest : List α} (hf : ls.filter p = h :: rest) : p h = true := by
  have hm : h ∈ ls.filter p := by
    rw [hf]
    exact List.mem_cons_self h rest
  exact (List.mem_filter.mp hm).2

theorem findNumAfter_eq_none {pre post t : List Char}
    (h : containsSub pre t = false) : findNumAfter pre post t = none := by
  induction t with
  | nil =>
      have hpre : pre ≠ [] := by
        rintro rfl
        rw [containsSub_nil] at h
        exact Bool.true_eq_false.mp h
      obtain ⟨p, ps, rfl⟩ := List.exists_cons_of_ne_nil hpre
      simp [findNumAfter, matchNumAfter, List.isPrefixOf]
  | cons c t ih =>
      simp only [containsSub, Bool.or_eq_false_iff] at h
      simp [findNumAfter, matchNumAfter, h.1, Option.orElse, ih h.2]

/-! ### The claims -/

/-- C3 (counterexample): on the empty input text no line matches a
marker, yet `extractErrorMessage` returns the fixed string
`"Unknown compilation error"`, not the first 800 characters of the raw
text (which would be the empty string). -/
theorem c3_counterexample :
    (List.splitOn '\n' ([] : List Char)).filter isErrorLine = [] ∧
    extractErrorMessage (some []) = str "Unknown compilation error" ∧
    extractErrorMessage (some []) ≠ List.take 800 ([] : List Char) := by
  refine ⟨by decide, by decide, by decide⟩

/-- C3 (amended): for every nonempty input text, `extractErrorMessage`
collects exactly the lines containing one of the four case-sensitive
markers, returns the first 8 of them joined by newline in original
order, and falls back to the first 800 characters of the raw text when
no line matches — i.e. it agrees with the summary function transcribed
from the claim's wording. -/
theorem c3_summary_matches_spec_on_nonempty :
    ∀ t : List Char, t ≠ [] → extractErrorMessage (some t) = specErrorSummary t := by
  intro t ht
  obtain ⟨c, cs, rfl⟩ := List.exists_cons_of_ne_nil ht
  have hfe : (List.splitOn '\n' (c :: cs)).filter
        (fun l => decide (∃ m ∈ errorMarkers, m <:+: l)) =
      (List.splitOn '\n' (c :: cs)).filter isErrorLine :=
    List.filter_congr fun a _ => (isErrorLine_eq_spec a).symm
  simp only [extractErrorMessage, specErrorSummary, specMatchingLines, jsFalsy,
    Option.getD, hfe]
  cases hf : (List.splitOn '\n' (c :: cs)).filter isErrorLine with
  | nil => simp [hf]
  | cons hline rest => simp [hf]

/-- C3 (witness for the amended claim): a concrete nonempty input on
which the code summary and the claim-worded summary coincide. -/
theorem c3_witness :
    (str "a\nb error: c\nd" ≠ []) ∧
    extractErrorMessage (some (str "a\nb error: c\nd")) =
      specErrorSummary (str "a\nb error: c\nd") :=
  ⟨by decide, c3_summary_matches_spec_on_nonempty (str "a\nb error: c\nd") (by decide)⟩

/-- C4: `parseSizeInfo` extracts flash and RAM byte counts
independently: on text carrying both phrases it returns both numbers, on
text missing the RAM phrase it still extracts flash with a null RAM
field, and a field whose phrase is absent from the text is always
null. -/
theorem c4_parseSizeInfo :
    parseSizeInfo sizeSampleBoth = ⟨some 1234, some 56⟩ ∧
    parseSizeInfo sizeSampleNoRam = ⟨some 1234, none⟩ ∧
    (∀ t : List Char, ¬ ((str "Global variables use ") <:+: t) →
      (parseSizeInfo t).ram = none) ∧
    (∀ t : List Char, ¬ ((str "Sketch uses ") <:+: t) →
      (parseSizeInfo t).flash = none) := by
  refine ⟨by decide, by decide, ?_, ?_⟩
  · intro t h
    have hcs : containsSub (str "Global variables use ") t = false := by
      cases hb : containsSub (str "Global variables use ") t with
      | false => rfl
      | true => exact absurd (containsSub_iff_substring.mp hb) h
    simp [parseSizeInfo, findNumAfter_eq_none hcs]
  · intro t h
    have hcs : containsSub (str "Sketch uses ") t = false := by
      cases hb : containsSub (str "Sketch uses ") t with
      | false => rfl
      | true => exact absurd (containsSub_iff_substring.mp hb) h
    simp [parseSizeInfo, findNumAfter_eq_none hcs]

/-- C4 (witness): on text containing neither phrase both fields are
null, by the phrase-absent clauses of the claim's theorem. -/
theorem c4_witness :
    (parseSizeInfo (str "no sizes here")).ram = none ∧
    (parseSizeInfo (str "no sizes here")).flash = none :=
  ⟨c4_parseSizeInfo.2.2.1 (str "no sizes here") (by decide),
   c4_parseSizeInfo.2.2.2 (str "no sizes here") (by decide)⟩

/-- C10: on an absent or empty input `extractErrorMessage` returns the
fixed string `"Unknown compilation error"` (not the 800-character
fallback, which would be empty), and its result is nonempty on every
input. -/
theorem c10_empty_input_fixed_message :
    extractErrorMessage none = str "Unknown compilation error" ∧
    extractErrorMessage (some []) = str "Unknown compilation error" ∧
    str "Unknown compilation error" ≠ List.take 800 ([] : List Char) ∧
    (∀ o : Option (List Char), extractErrorMessage o ≠ []) := by
  refine ⟨rfl, rfl, by decide, ?_⟩
  intro o
  match o with
  | none => decide
  | some [] => decide
  | some (c :: cs) =>
    show extractErrorMessage (some (c :: cs)) ≠ []
    simp only [extractErrorMessage, jsFalsy, Option.getD]
    cases hf : (List.splitOn '\n' (c :: cs)).filter isErrorLine with
    | nil => simp [hf]
    | cons hline rest =>
        have hp : isErrorLine hline = true := filter_head_prop hf
        obtain ⟨s, hs⟩ := intercalate_cons_exists ['\n'] hline (rest.take 7)
        obtain ⟨x, xs, rfl⟩ := List.exists_cons_of_ne_nil (isErrorLine_ne_nil hp)
        simp [hf, List.take_succ_cons, hs]

/-- C10 (witness): the result is nonempty on a concrete input. -/
theorem c10_witness : extractErrorMessage (some (str "boom")) ≠ [] :=
  c10_empty_input_fixed_message.2.2.2 (some (str "boom"))

/-- C1 (counterexample): on a valid, registered request with the
toolchain binary absent at its fixed install path (and workspace setup
fine), the handler responds 200 with a compile-failure payload, not
500: the missing-binary rejection is caught by the inner compile-error
catch (src/server.js lines 129-135). -/
theorem c1_counterexample :
    (handleCompile { envBase with cliExists := false }
        (some (str "int x = 0;")) (some (str "arduino:avr:uno"))).1.status = 200 ∧
    (handleCompile { envBase with cliExists := false }
        (some (str "int x = 0;")) (some (str "arduino:avr:uno"))).1.status ≠ 500 ∧
    (handleCompile { envBase with cliExists := false }
        (some (str "int x = 0;")) (some (str "arduino:avr:uno"))).1.success = false := by
  refine ⟨by decide, by decide, by decide⟩

/-- C1 (amended): for every valid, registered request handled while the
toolchain binary is absent, the response is HTTP 200 with
`success: false`, the error field holding the summary extracted from the
missing-binary message and the output field holding that message — the
missing-binary failure surfaces through the compile-failure path, never
as a 500. -/
theorem c1_missing_binary_is_200 :
    ∀ (env : Env) (code fqbn : Option (List Char)),
    jsFalsy code = false → jsFalsy fqbn = false →
    (SUPPORTED_BOARDS.lookup (fqbn.getD [])).isSome = true →
    env.setupOk = true → env.cliExists = false →
    (handleCompile env code fqbn).1 =
      { status := 200, success := false
        error := some (extractErrorMessage (some (missingCliMsg env)))
        output := some (missingCliMsg env), hex := none, size := none } := by
  intro env code fqbn hc hf hr hs hcli
  simp [handleCompile, boardAccessTruthy, tryBody, runArduinoCli, jsOr, hc, hf, hr, hs, hcli]

/-- C1 (witness): the amended claim at a concrete environment and
request. -/
theorem c1_witness :
    (handleCompile { envBase with cliExists := false }
        (some (str "int y = 1;")) (some (str "arduino:avr:nano"))).1 =
      { status := 200, success := false
        error := some (extractErrorMessage
          (some (missingCliMsg { envBase with cliExists := false })))
        output := some (missingCliMsg { envBase with cliExists := false })
        hex := none, size := none } :=
  c1_missing_binary_is_200 { envBase with cliExists := false }
    (some (str "int y = 1;")) (some (str "arduino:avr:nano"))
    (by decide) (by decide) (by decide) rfl rfl

/-- C2: every request that passes validation (and therefore reaches
workspace creation) ends with the workspace tree removed whenever the
removal call succeeds — on every exit path, since the environment is
universally quantified over setup failure, toolchain failure, missing
artifact, read failure and success — and a failing removal is swallowed:
the response is identical whether the removal succeeds or fails. -/
theorem c2_workspace_cleanup :
    ∀ (env : Env) (code fqbn : Option (List Char)),
    jsFalsy code = false → jsFalsy fqbn = false →
    (SUPPORTED_BOARDS.lookup (fqbn.getD [])).isSome = true →
    (handleCompile env code fqbn).2.created = true ∧
    (env.rmOk = true → (handleCompile env code fqbn).2.stillExists = false) ∧
    (∀ b : Bool,
      (handleCompile { env with rmOk := b } code fqbn).1 =
        (handleCompile env code fqbn).1) := by
  intro env code fqbn hc hf hr
  refine ⟨?_, ?_, ?_⟩
  · simp [handleCompile, boardAccessTruthy, hc, hf, hr]
  · intro hrm
    simp [handleCompile, boardAccessTruthy, hc, hf, hr, hrm]
  · intro b
    simp only [handleCompile, boardAccessTruthy, hc, hf, hr]
    rfl

/-- C2 (witness): the cleanup contract at a concrete environment and
request, on the success path. -/
theorem c2_witness :
    (handleCompile envBase (some (str "int z = 2;"))
        (some (str "arduino:avr:micro"))).2.created = true ∧
    (handleCompile envBase (some (str "int z = 2;"))
        (some (str "arduino:avr:micro"))).2.stillExists = false ∧
    (handleCompile { envBase with rmOk := false } (some (str "int z = 2;"))
        (some (str "arduino:avr:micro"))).1 =
      (handleCompile envBase (some (str "int z = 2;"))
        (some (str "arduino:avr:micro"))).1 := by
  have h := c2_workspace_cleanup envBase (some (str "int z = 2;"))
    (some (str "arduino:avr:micro")) (by decide) (by decide) (by decide)
  exact ⟨h.1, h.2.1 rfl, h.2.2 false⟩

/-- C7 (counterexample): a request with both parameters absent has
`fqbn` absent, yet its 400 response carries the error
`"Missing code parameter"`, not `"Missing fqbn parameter"` — the code
check runs first. -/
theorem c7_counterexample :
    (handleCompile envBase none none).1.status = 400 ∧
    (handleCompile envBase none none).1.error = some (str "Missing code parameter") ∧
    (handleCompile envBase none none).1.error ≠ some (str "Missing fqbn parameter") := by
  refine ⟨by decide, by decide, by decide⟩

/-- C7 (amended): a request with `code` absent or empty gets 400 with
exactly `"Missing code parameter"`, a request with `code` present and
nonempty but `fqbn` absent or empty gets 400 with exactly
`"Missing fqbn parameter"`, and in both cases no workspace is ever
created. -/
theorem c7_validation_rejections :
    ∀ (env : Env) (code fqbn : Option (List Char)),
    (jsFalsy code = true →
      handleCompile env code fqbn =
        (resp400 (str "Missing code parameter"),
         { created := false, stillExists := false })) ∧
    (jsFalsy code = false → jsFalsy fqbn = true →
      handleCompile env code fqbn =
        (resp400 (str "Missing fqbn parameter"),
         { created := false, stillExists := false })) := by
  intro env code fqbn
  constructor
  · intro hc
    simp [handleCompile, hc]
  · intro hc hf
    simp [handleCompile, hc, hf]

/-- C7 (witness): the two validation rejections at concrete requests. -/
theorem c7_witness :
    handleCompile envBase none (some (str "arduino:avr:uno")) =
      (resp400 (str "Missing code parameter"),
       { created := false, stillExists := false }) ∧
    handleCompile envBase (some (str "int a;")) (some []) =
      (resp400 (str "Missing fqbn parameter"),
       { created := false, stillExists := false }) :=
  ⟨(c7_validation_rejections envBase none (some (str "arduino:avr:uno"))).1 rfl,
   (c7_validation_rejections envBase (some (str "int a;")) (some [])).2 rfl rfl⟩

/-- C8 (counterexample): `"toString"` is not a key of the board
registry, yet `SUPPORTED_BOARDS["toString"]` is truthy through the
prototype chain, so a request carrying it as `fqbn` passes validation,
creates a workspace and is compiled — it gets a 200 response, not the
400 `"Unsupported board: ..."` rejection the claim promises for every
non-key fqbn. -/
theorem c8_counterexample :
    SUPPORTED_BOARDS.lookup (str "toString") = none ∧
    (handleCompile envBase (some (str "int b;")) (some (str "toString"))).1.status = 200 ∧
    (handleCompile envBase (some (str "int b;")) (some (str "toString"))).1.status ≠ 400 ∧
    (handleCompile envBase (some (str "int b;")) (some (str "toString"))).2.created
      = true := by
  refine ⟨by decide, by decide, by decide, by decide⟩

/-- C8 (amended): every request with nonempty `code` and nonempty
`fqbn` that is neither a registry key nor the name of an
`Object.prototype` property gets 400 with the error naming the rejected
fqbn and listing all supported identifiers comma-separated in registry
insertion order, and no workspace is created; the key list is exactly
the seven identifiers in source order.  (An empty fqbn is instead
rejected as missing, and an `Object.prototype` name is accepted as if
registered.) -/
theorem c8_unsupported_board :
    (∀ (env : Env) (code fqbn : Option (List Char)),
      jsFalsy code = false → jsFalsy fqbn = false →
      SUPPORTED_BOARDS.lookup (fqbn.getD []) = none →
      protoProps.contains (fqbn.getD []) = false →
      handleCompile env code fqbn =
        (resp400 (str "Unsupported board: " ++ fqbn.getD [] ++ str ". Supported: " ++
          List.intercalate (str ", ") supportedKeys),
         { created := false, stillExists := false })) ∧
    supportedKeys =
      [str "arduino:avr:uno", str "arduino:avr:nano",
       str "arduino:avr:nano:cpu=atmega328", str "arduino:avr:nano:cpu=atmega328old",
       str "arduino:avr:mega:cpu=atmega2560", str "arduino:avr:leonardo",
       str "arduino:avr:micro"] := by
  constructor
  · intro env code fqbn hc hf hr hp
    simp at hp
    simp [handleCompile, boardAccessTruthy, hc, hf, hr, hp]
  · decide

/-- C8 (witness): the rejection at a concrete fqbn that is neither a
registry key nor an `Object.prototype` property name. -/
theorem c8_witness :
    handleCompile envBase (some (str "int c;")) (some (str "esp32:esp32:esp32")) =
      (resp400 (str "Unsupported board: " ++ str "esp32:esp32:esp32" ++
        str ". Supported: " ++ List.intercalate (str ", ") supportedKeys),
       { created := false, stillExists := false }) :=
  c8_unsupported_board.1 envBase (some (str "int c;")) (some (str "esp32:esp32:esp32"))
    (by decide) (by decide) (by decide) (by decide)

/-- C9: when the configuration file exists the argument vector handed to
the external binary is exactly the pair `--config-file <path>` followed
by the caller's arguments in order, and exactly the caller's arguments
unmodified otherwise; `runArduinoCli`'s outcome depends on the
subprocess only through its behaviour at that exact argument vector. -/
theorem c9_config_file_args :
    ∀ (p : List Char) (args : List (List Char)) (env : Env)
      (e1 e2 : List (List Char) → ExecOutcome),
    finalArgs true p args = str "--config-file" :: p :: args ∧
    finalArgs false p args = args ∧
    (e1 (finalArgs env.cfgExists env.cfgPath args) =
        e2 (finalArgs env.cfgExists env.cfgPath args) →
      runArduinoCli { env with exec := e1 } args =
        runArduinoCli { env with exec := e2 } args) := by
  intro p args env e1 e2
  refine ⟨rfl, rfl, ?_⟩
  intro h
  simp only [runArduinoCli]
  rw [h]
  rfl

/-- C9 (witness): two subprocess behaviours that agree at the injected
argument vector give identical invoker outcomes, at concrete inputs. -/
theorem c9_witness :
    runArduinoCli { envBase with exec := (fun _ => .exited 0 (str "ok") []) }
        [str "version"] =
      runArduinoCli
        { envBase with exec := (fun a => .exited (a.length - a.length) (str "ok") []) }
        [str "version"] :=
  (c9_config_file_args envBase.cfgPath [str "version"] envBase
    (fun _ => .exited 0 (str "ok") [])
    (fun a => .exited (a.length - a.length) (str "ok") [])).2.2 (by decide)

/-- C5: on every valid request where the toolchain runs and exits
non-zero the response is HTTP 200 with `success: false`; on every valid
request where the toolchain exits 0 but the fixed-named hex artifact is
absent the response is HTTP 200 with `success: false` and the dedicated
message `"Compilation succeeded but HEX file not found"`; and that
message is distinct from every compile-error summary built from output
containing a marker line. -/
theorem c5_failure_is_200 :
    ∀ (env : Env) (code fqbn : Option (List Char)),
    jsFalsy code = false → jsFalsy fqbn = false →
    (SUPPORTED_BOARDS.lookup (fqbn.getD [])).isSome = true →
    env.setupOk = true → env.cliExists = true →
    ((∀ (c : Nat) (so se : List Char),
        env.exec (finalArgs env.cfgExists env.cfgPath
            (compileArgs env (fqbn.getD []))) = .exited (c + 1) so se →
        (handleCompile env code fqbn).1.status = 200 ∧
        (handleCompile env code fqbn).1.success = false) ∧
     (∀ so se : List Char,
        env.exec (finalArgs env.cfgExists env.cfgPath
            (compileArgs env (fqbn.getD []))) = .exited 0 so se →
        env.hexExists = false →
        (handleCompile env code fqbn).1 =
          { status := 200, success := false, error := some hexNotFoundMsg
            output := some (combineOutput so se), hex := none, size := none }) ∧
     (∀ t : List Char, (t.splitOn '\n').any isErrorLine = true →
        extractErrorMessage (some t) ≠ hexNotFoundMsg)) := by
  intro env code fqbn hc hf hr hs hcli
  refine ⟨?_, ?_, ?_⟩
  · intro c so se hexec
    simp [handleCompile, boardAccessTruthy, tryBody, runArduinoCli, hc, hf, hr, hs,
      hcli, hexec]
  · intro so se hexec hhex
    simp [handleCompile, boardAccessTruthy, tryBody, runArduinoCli, hc, hf, hr, hs,
      hcli, hexec, hhex]
  · intro t hany heq
    have ht : t ≠ [] := by
      rintro rfl
      exact absurd hany (by decide)
    obtain ⟨c0, cs, rfl⟩ := List.exists_cons_of_ne_nil ht
    obtain ⟨l, hl, hpl⟩ := List.any_eq_true.mp hany
    have hne : (List.splitOn '\n' (c0 :: cs)).filter isErrorLine ≠ [] := by
      intro hnil
      exact absurd hpl (by simpa using List.filter_eq_nil_iff.mp hnil l hl)
    obtain ⟨hline, rest, hfl⟩ :
        ∃ h rest, (List.splitOn '\n' (c0 :: cs)).filter isErrorLine = h :: rest := by
      cases hflt : (List.splitOn '\n' (c0 :: cs)).filter isErrorLine with
      | nil => exact absurd hflt hne
      | cons a as => exact ⟨a, as, rfl⟩
    have hphead : isErrorLine hline = true := filter_head_prop hfl
    obtain ⟨s, hs'⟩ := intercalate_cons_exists ['\n'] hline (rest.take 7)
    have hmsg : extractErrorMessage (some (c0 :: cs)) = hline ++ s := by
      simp only [extractErrorMessage, jsFalsy, Option.getD]
      simp [hfl, List.take_succ_cons, hs']
    rw [hmsg] at heq
    simp only [isErrorLine, Bool.or_eq_true] at hphead
    rcases hphead with ((h1 | h2) | h3) | h4
    · have := containsSub_append_right s h1
      rw [heq] at this
      exact absurd this (by decide)
    · have := containsSub_append_right s h2
      rw [heq] at this
      exact absurd this (by decide)
    · have := containsSub_append_right s h3
      rw [heq] at this
      exact absurd this (by decide)
    · have := containsSub_append_right s h4
      rw [heq] at this
      exact absurd this (by decide)

/-- C5 (witness): a concrete non-zero exit gives a 200 failure, a
concrete artifact-missing run gives the dedicated message, and a
concrete marker-bearing summary differs from that message. -/
theorem c5_witness :
    (handleCompile { envBase with exec := (fun _ =>
        .exited 1 (str "sketch.ino:1:1: error: boom") []) }
      (some (str "int d;")) (some (str "arduino:avr:uno"))).1.status = 200 ∧
    (handleCompile { envBase with exec := (fun _ =>
        .exited 1 (str "sketch.ino:1:1: error: boom") []) }
      (some (str "int d;")) (some (str "arduino:avr:uno"))).1.success = false ∧
    (handleCompile { envBase with hexExists := false }
      (some (str "int d;")) (some (str "arduino:avr:uno"))).1 =
      { status := 200, success := false, error := some hexNotFoundMsg
        output := some (combineOutput
          (str "Sketch uses 1234 bytes (3%) of program storage space.") [])
        hex := none, size := none } ∧
    extractErrorMessage (some (str "x error: y")) ≠ hexNotFoundMsg := by
  have h1 := c5_failure_is_200
    { envBase with exec := (fun _ => .exited 1 (str "sketch.ino:1:1: error: boom") []) }
    (some (str "int d;")) (some (str "arduino:avr:uno"))
    (by decide) (by decide) (by decide) rfl rfl
  have h2 := c5_failure_is_200 { envBase with hexExists := false }
    (some (str "int d;")) (some (str "arduino:avr:uno"))
    (by decide) (by decide) (by decide) rfl rfl
  exact ⟨(h1.1 0 (str "sketch.ino:1:1: error: boom") [] rfl).1,
         (h1.1 0 (str "sketch.ino:1:1: error: boom") [] rfl).2,
         h2.2.1 (str "Sketch uses 1234 bytes (3%) of program storage space.") [] rfl rfl,
         h1.2.2 (str "x error: y") (by decide)⟩

/-- C6: with the binary present, a timed-out invocation rejects with the
timeout-kill error shape and a non-zero exit rejects with the exit-code
error shape; the two rejection values are distinct even for identical
output streams, and the default wall-clock timeout is 120000 ms. -/
theorem c6_timeout_distinct_from_exit :
    ∀ (env : Env) (args : List (List Char)) (so se so2 se2 : List Char) (c : Nat),
    env.cliExists = true →
    runArduinoCli { env with exec := (fun _ => .timedOut so se) } args =
      .error { kind := .timeoutKilled, message := env.nodeErrMsg
               combined := some (combineOutput so se) } ∧
    runArduinoCli { env with exec := (fun _ => .exited (c + 1) so2 se2) } args =
      .error { kind := .exitNonZero (c + 1), message := env.nodeErrMsg
               combined := some (combineOutput so2 se2) } ∧
    runArduinoCli { env with exec := (fun _ => .timedOut so se) } args ≠
      runArduinoCli { env with exec := (fun _ => .exited (c + 1) so se) } args ∧
    defaultTimeoutMs = 120000 := by
  intro env args so se so2 se2 c hcli
  refine ⟨?_, ?_, ?_, rfl⟩
  · simp [runArduinoCli, hcli]
  · simp [runArduinoCli, hcli]
  · simp [runArduinoCli, hcli]

/-- C6 (witness): the distinct rejection shapes at a concrete
environment, argument vector and output streams. -/
theorem c6_witness :
    runArduinoCli { envBase with exec := (fun _ => .timedOut (str "halfway") []) }
        [str "compile"] ≠
      runArduinoCli { envBase with exec := (fun _ => .exited 1 (str "halfway") []) }
        [str "compile"] :=
  (c6_timeout_distinct_from_exit envBase [str "compile"]
    (str "halfway") [] [] [] 0 rfl).2.2.1

end ArduinoCompiler
